import Mathlib

/-!
Shallow embedding of `zep_python/memory/models.py`: the pydantic-v1 data
model layer of the zep-python client (Session, Summary, Message, Memory,
MemorySearchPayload, MemorySearchResult).

Modelling conventions:
* A Python/JSON value (the `Any` in `Dict[str, Any]`, and the values of
  `.dict()` output) is a `PyVal`.  Python `float` is modelled as `Rat`
  (no claim depends on floating-point rounding).
* Pydantic-v1 construction with keyword arguments is modelled by a
  `construct` function whose parameters are `Option`-wrapped: `Option.none`
  means the keyword was omitted, `Option.some v` means it was supplied with
  the (well-typed) value `v`.  Construction returns
  `Except ValidationError record`, mirroring pydantic raising
  `ValidationError` versus returning the instance.
* Pydantic-v1 semantics followed here: a field with a declared default
  (`Field(<default>)` or `Field(default=...)`) is NOT required — omitting
  it binds the default, and defaults are NOT validated against the declared
  type (v1 `validate_all` is off).  A field with no default
  (`session_id: str`) is required: omitting it raises a missing-field
  ValidationError naming the field.
* `to_dict` is pydantic's `self.dict()`: an ordered field-name-to-value
  mapping (modelled as an association list in declaration order) that
  recursively expands nested models into their own dicts.
-/

/-- A dynamically-typed Python/JSON value, for `Dict[str, Any]` payloads and
for the output of `.dict()`. -/
inductive PyVal where
  | pynone : PyVal
  | str : String → PyVal
  | int : Int → PyVal
  | float : Rat → PyVal
  | bool : Bool → PyVal
  | list : List PyVal → PyVal
  | dict : List (String × PyVal) → PyVal

/-- A Python `Dict[str, Any]`, insertion-ordered. -/
def Metadata : Type := List (String × PyVal)

/-- Pydantic `ValidationError`, restricted to the cases reachable from
well-typed Lean inputs: a required field was omitted. -/
inductive ValidationError where
  | missing : String → ValidationError
deriving DecidableEq, Repr

/-- `class Session(BaseModel)` — fields in source declaration order
(models.py lines 45-52). -/
structure Session where
  uuid : Option String
  id : Option Int
  created_at : Option String
  updated_at : Option String
  deleted_at : Option String
  session_id : String
  user_id : Option String
  metadata : Option Metadata

/-- Pydantic construction of `Session`: every field except `session_id`
defaults to `None`; `session_id: str` has no default, so omitting it is a
missing-field validation error. -/
def Session.construct (uuid : Option (Option String)) (id : Option (Option Int))
    (created_at updated_at deleted_at : Option (Option String))
    (session_id : Option String) (user_id : Option (Option String))
    (metadata : Option (Option Metadata)) : Except ValidationError Session :=
  match session_id with
  | Option.none => Except.error (ValidationError.missing "session_id")
  | Option.some sid =>
      Except.ok ⟨uuid.getD Option.none, id.getD Option.none,
        created_at.getD Option.none, updated_at.getD Option.none,
        deleted_at.getD Option.none, sid, user_id.getD Option.none,
        metadata.getD Option.none⟩

/-- `class Summary(BaseModel)` (models.py lines 78-82).  Every field is
declared with a placeholder-string default via `Field(...)`; in particular
`token_count: int = Field("A token_count is required")` has a *string*
default for an `int`-declared field, so at runtime the attribute may hold
either an int (validated, when supplied) or the unvalidated placeholder
string (when omitted) — hence its type here is `PyVal`. -/
structure Summary where
  uuid : String
  created_at : String
  content : String
  recent_message_uuid : String
  token_count : PyVal

/-- Pydantic construction of `Summary`: all five fields have defaults, so
construction never fails; omitted fields get their (unvalidated)
placeholder-string defaults. -/
def Summary.construct (uuid created_at content recent_message_uuid : Option String)
    (token_count : Option Int) : Except ValidationError Summary :=
  Except.ok ⟨uuid.getD "A uuid is required",
    created_at.getD "A created_at is required",
    content.getD "Content is required",
    recent_message_uuid.getD "A recent_message_uuid is required",
    match token_count with
    | Option.some n => PyVal.int n
    | Option.none => PyVal.str "A token_count is required"⟩

/-- `Summary.to_dict` = `self.dict()` (models.py lines 84-93). -/
def Summary.to_dict (s : Summary) : List (String × PyVal) :=
  [("uuid", PyVal.str s.uuid),
   ("created_at", PyVal.str s.created_at),
   ("content", PyVal.str s.content),
   ("recent_message_uuid", PyVal.str s.recent_message_uuid),
   ("token_count", s.token_count)]

/-- `class Message(BaseModel)` — fields in source declaration order
(models.py lines 119-124). -/
structure Message where
  role : String
  content : String
  uuid : Option String
  created_at : Option String
  token_count : Option Int
  metadata : Option Metadata

/-- Pydantic construction of `Message`: `role` and `content` carry
placeholder-string defaults (`Field("A role is required")`,
`Field("Content is required")`), the rest default to `None`; every field
has a default, so construction never fails. -/
def Message.construct (role content : Option String)
    (uuid created_at : Option (Option String))
    (token_count : Option (Option Int))
    (metadata : Option (Option Metadata)) : Except ValidationError Message :=
  Except.ok ⟨role.getD "A role is required", content.getD "Content is required",
    uuid.getD Option.none, created_at.getD Option.none,
    token_count.getD Option.none, metadata.getD Option.none⟩

/-- `None`-or-string field rendered as a `.dict()` value. -/
def optStr : Option String → PyVal
  | Option.none => PyVal.pynone
  | Option.some s => PyVal.str s

/-- `None`-or-int field rendered as a `.dict()` value. -/
def optInt : Option Int → PyVal
  | Option.none => PyVal.pynone
  | Option.some n => PyVal.int n

/-- `None`-or-mapping field rendered as a `.dict()` value. -/
def optMeta : Option Metadata → PyVal
  | Option.none => PyVal.pynone
  | Option.some d => PyVal.dict d

/-- `Message.to_dict` = `self.dict()` (models.py lines 126-135). -/
def Message.to_dict (m : Message) : List (String × PyVal) :=
  [("role", PyVal.str m.role),
   ("content", PyVal.str m.content),
   ("uuid", optStr m.uuid),
   ("created_at", optStr m.created_at),
   ("token_count", optInt m.token_count),
   ("metadata", optMeta m.metadata)]

/-- `class Memory(BaseModel)` — fields in source declaration order
(models.py lines 163-170). -/
structure Memory where
  messages : List Message
  metadata : Option Metadata
  summary : Option Summary
  uuid : Option String
  created_at : Option String
  token_count : Option Int

/-- Pydantic construction of `Memory`: `messages` defaults to the empty
list (`Field(default=[])`), the rest default to `None`; construction never
fails. -/
def Memory.construct (messages : Option (List Message))
    (metadata : Option (Option Metadata)) (summary : Option (Option Summary))
    (uuid created_at : Option (Option String))
    (token_count : Option (Option Int)) : Except ValidationError Memory :=
  Except.ok ⟨messages.getD [], metadata.getD Option.none,
    summary.getD Option.none, uuid.getD Option.none,
    created_at.getD Option.none, token_count.getD Option.none⟩

/-- `None`-or-`Summary` field rendered as a `.dict()` value (nested models
are recursively expanded by pydantic `.dict()`). -/
def optSummary : Option Summary → PyVal
  | Option.none => PyVal.pynone
  | Option.some s => PyVal.dict s.to_dict

/-- `Memory.to_dict` = `self.dict()` (models.py lines 172-173): nested
`Message`s and the `Summary` are recursively expanded into plain dicts. -/
def Memory.to_dict (m : Memory) : List (String × PyVal) :=
  [("messages", PyVal.list (m.messages.map fun msg => PyVal.dict msg.to_dict)),
   ("metadata", optMeta m.metadata),
   ("summary", optSummary m.summary),
   ("uuid", optStr m.uuid),
   ("created_at", optStr m.created_at),
   ("token_count", optInt m.token_count)]

/-- `class MemorySearchPayload(BaseModel)` — fields in source declaration
order (models.py lines 196-200); `mmr_lambda: Optional[float]` modelled as
`Option Rat`. -/
structure MemorySearchPayload where
  text : Option String
  metadata : Option Metadata
  search_scope : Option String
  search_type : Option String
  mmr_lambda : Option Rat

/-- Pydantic construction of `MemorySearchPayload`: `search_scope` defaults
to `"messages"` and `search_type` to `"similarity"`; the other fields
default to `None`.  All fields are plain (optional) strings/floats — no
enumeration check is performed, so construction never fails. -/
def MemorySearchPayload.construct (text : Option (Option String))
    (metadata : Option (Option Metadata))
    (search_scope search_type : Option (Option String))
    (mmr_lambda : Option (Option Rat)) :
    Except ValidationError MemorySearchPayload :=
  Except.ok ⟨text.getD Option.none, metadata.getD Option.none,
    search_scope.getD (Option.some "messages"),
    search_type.getD (Option.some "similarity"),
    mmr_lambda.getD Option.none⟩

/-- `class MemorySearchResult(BaseModel)` (models.py lines 220-223);
`message` is an untyped mapping (the in-source "legacy bug" comment), and
every field defaults to `None`. -/
structure MemorySearchResult where
  message : Option Metadata
  summary : Option Summary
  metadata : Option Metadata
  dist : Option Rat

/-- Pydantic construction of `MemorySearchResult`: every field defaults to
`None`; construction never fails. -/
def MemorySearchResult.construct (message : Option (Option Metadata))
    (summary : Option (Option Summary)) (metadata : Option (Option Metadata))
    (dist : Option (Option Rat)) : Except ValidationError MemorySearchResult :=
  Except.ok ⟨message.getD Option.none, summary.getD Option.none,
    metadata.getD Option.none, dist.getD Option.none⟩

/-- `class SearchScope(str, Enum)` (models.py lines 15-17). -/
inductive SearchScope where
  | messages : SearchScope
  | summary : SearchScope
deriving DecidableEq, Repr

/-- The string value of a `SearchScope` member. -/
def SearchScope.value : SearchScope → String
  | SearchScope.messages => "messages"
  | SearchScope.summary => "summary"

/-! ## Helper lemmas (shared) -/

/-- `optStr` is injective: the `.dict()` rendering loses no information on
an optional-string field. -/
theorem optStr_inj {a b : Option String} (h : optStr a = optStr b) : a = b := by
  cases a <;> cases b <;> simp_all [optStr]

/-- `optInt` is injective. -/
theorem optInt_inj {a b : Option Int} (h : optInt a = optInt b) : a = b := by
  cases a <;> cases b <;> simp_all [optInt]

/-- `optMeta` is injective. -/
theorem optMeta_inj {a b : Option Metadata} (h : optMeta a = optMeta b) : a = b := by
  cases a <;> cases b <;> simp_all [optMeta]

/-- `Message.to_dict` is injective: a message is recoverable from its dict. -/
theorem message_to_dict_inj : Function.Injective Message.to_dict := by
  intro m1 m2 h
  cases m1; cases m2
  simp only [Message.to_dict, List.cons.injEq, Prod.mk.injEq, PyVal.str.injEq,
    and_true, true_and] at h
  obtain ⟨hr, hc, hu, hca, htc, hmd⟩ := h
  simp [hr, hc, optStr_inj hu, optStr_inj hca, optInt_inj htc, optMeta_inj hmd]

/-- `Summary.to_dict` is injective: a summary is recoverable from its dict. -/
theorem summary_to_dict_inj : Function.Injective Summary.to_dict := by
  intro s1 s2 h
  cases s1; cases s2
  simp only [Summary.to_dict, List.cons.injEq, Prod.mk.injEq, PyVal.str.injEq,
    and_true, true_and] at h
  obtain ⟨h1, h2, h3, h4, h5⟩ := h
  simp [h1, h2, h3, h4, h5]

/-- `optSummary` is injective. -/
theorem optSummary_inj {a b : Option Summary} (h : optSummary a = optSummary b) :
    a = b := by
  cases a <;> cases b <;> simp_all [optSummary]
  exact summary_to_dict_inj (by assumption)

/-- `Memory.to_dict` is injective: a memory (messages included, in order) is
recoverable from its dict. -/
theorem memory_to_dict_inj : Function.Injective Memory.to_dict := by
  intro m1 m2 h
  cases m1; cases m2
  simp only [Memory.to_dict, List.cons.injEq, Prod.mk.injEq, PyVal.list.injEq,
    and_true, true_and] at h
  obtain ⟨hm, hmd, hs, hu, hca, htc⟩ := h
  have hmsg : _ = _ := List.map_injective_iff.mpr
    (fun a b hab => message_to_dict_inj (PyVal.dict.injEq _ _ ▸ hab : a.to_dict = b.to_dict)) hm
  simp [hmsg, optMeta_inj hmd, optSummary_inj hs, optStr_inj hu, optStr_inj hca,
    optInt_inj htc]

/-! ## Claim theorems -/

/-- Claim C1 (failing-input evaluation).  The claim says constructing a
Message while omitting `role` or `content` fails with a validation error at
construction time.  The code does not: both fields are declared with
placeholder-string *defaults* (`Field("A role is required")`,
`Field("Content is required")`), so pydantic treats them as optional.
Constructing with every keyword omitted succeeds and binds the placeholder
strings — no error value is ever produced. -/
theorem C1_message_omitted_fields_construct_ok :
    Message.construct Option.none Option.none Option.none Option.none Option.none
        Option.none
      = Except.ok ⟨"A role is required", "Content is required", Option.none,
          Option.none, Option.none, Option.none⟩ ∧
    (Message.construct Option.none Option.none Option.none Option.none Option.none
        Option.none).isOk = true := ⟨rfl, rfl⟩

/-- Claim C2: for Message, Summary and Memory (the record types defining
`to_dict`), constructing from any valid set of field values and then calling
`to_dict` yields a mapping with every declared field present, bound to the
constructed value (nested records expanded recursively); and `to_dict` is
injective on each type, so the rendering loses no information. -/
theorem C2_construct_to_dict_round_trip :
    (∀ (r c : String) (u ca : Option String) (tc : Option Int) (md : Option Metadata),
      ∃ m : Message,
        Message.construct (Option.some r) (Option.some c) (Option.some u)
            (Option.some ca) (Option.some tc) (Option.some md) = Except.ok m ∧
        m.to_dict = [("role", PyVal.str r), ("content", PyVal.str c),
          ("uuid", optStr u), ("created_at", optStr ca),
          ("token_count", optInt tc), ("metadata", optMeta md)]) ∧
    (∀ (u ca c rmu : String) (tc : Int),
      ∃ s : Summary,
        Summary.construct (Option.some u) (Option.some ca) (Option.some c)
            (Option.some rmu) (Option.some tc) = Except.ok s ∧
        s.to_dict = [("uuid", PyVal.str u), ("created_at", PyVal.str ca),
          ("content", PyVal.str c), ("recent_message_uuid", PyVal.str rmu),
          ("token_count", PyVal.int tc)]) ∧
    (∀ (msgs : List Message) (md : Option Metadata) (sm : Option Summary)
        (u ca : Option String) (tc : Option Int),
      ∃ mem : Memory,
        Memory.construct (Option.some msgs) (Option.some md) (Option.some sm)
            (Option.some u) (Option.some ca) (Option.some tc) = Except.ok mem ∧
        mem.to_dict = [("messages",
            PyVal.list (msgs.map fun m => PyVal.dict m.to_dict)),
          ("metadata", optMeta md), ("summary", optSummary sm),
          ("uuid", optStr u), ("created_at", optStr ca),
          ("token_count", optInt tc)]) ∧
    Function.Injective Message.to_dict ∧
    Function.Injective Summary.to_dict ∧
    Function.Injective Memory.to_dict :=
  ⟨fun _ _ _ _ _ _ => ⟨_, rfl, rfl⟩,
   fun _ _ _ _ _ => ⟨_, rfl, rfl⟩,
   fun _ _ _ _ _ _ => ⟨_, rfl, rfl⟩,
   message_to_dict_inj, summary_to_dict_inj, memory_to_dict_inj⟩

/-- Claim C3: constructing a Message with exactly role="user" and
content="hi" succeeds, and its `to_dict` is exactly the six-key mapping with
the four optional fields `None` and no other keys. -/
theorem C3_message_user_hi_exact_dict :
    ∃ m : Message,
      Message.construct (Option.some "user") (Option.some "hi") Option.none
          Option.none Option.none Option.none = Except.ok m ∧
      m.to_dict = [("role", PyVal.str "user"), ("content", PyVal.str "hi"),
        ("uuid", PyVal.pynone), ("created_at", PyVal.pynone),
        ("token_count", PyVal.pynone), ("metadata", PyVal.pynone)] :=
  ⟨_, rfl, rfl⟩

/-- Claim C4: constructing a Session without `session_id` fails with a
validation error identifying the missing field, while construction with
`session_id` alone succeeds and leaves every other field `None`. -/
theorem C4_session_requires_session_id (sid : String) :
    Session.construct Option.none Option.none Option.none Option.none Option.none
        Option.none Option.none Option.none
      = Except.error (ValidationError.missing "session_id") ∧
    Session.construct Option.none Option.none Option.none Option.none Option.none
        (Option.some sid) Option.none Option.none
      = Except.ok ⟨Option.none, Option.none, Option.none, Option.none,
          Option.none, sid, Option.none, Option.none⟩ := ⟨rfl, rfl⟩

/-- Claim C5: a MemorySearchPayload constructed with only text="hello" has
search_scope = "messages" and search_type = "similarity" (the defaults),
metadata = None and mmr_lambda = None. -/
theorem C5_search_payload_text_only_defaults :
    MemorySearchPayload.construct (Option.some (Option.some "hello")) Option.none
        Option.none Option.none Option.none
      = Except.ok ⟨Option.some "hello", Option.none, Option.some "messages",
          Option.some "similarity", Option.none⟩ := rfl

/-- Claim C6: constructing a Memory with an empty messages sequence, or
omitting messages entirely (taking the default), yields messages = [] (not
None), and `to_dict` maps "messages" to the empty list. -/
theorem C6_memory_empty_messages :
    (∃ mem : Memory,
      Memory.construct (Option.some []) Option.none Option.none Option.none
          Option.none Option.none = Except.ok mem ∧
      mem.messages = [] ∧
      mem.to_dict.lookup "messages" = Option.some (PyVal.list [])) ∧
    (∃ mem : Memory,
      Memory.construct Option.none Option.none Option.none Option.none
          Option.none Option.none = Except.ok mem ∧
      mem.messages = [] ∧
      mem.to_dict.lookup "messages" = Option.some (PyVal.list [])) :=
  ⟨⟨_, rfl, rfl, rfl⟩, ⟨_, rfl, rfl, rfl⟩⟩

/-- Claim C7: two Messages are equal iff all six fields are pairwise equal
(structural equality). -/
theorem C7_message_structural_equality (m1 m2 : Message) :
    m1 = m2 ↔ (m1.role = m2.role ∧ m1.content = m2.content ∧ m1.uuid = m2.uuid ∧
      m1.created_at = m2.created_at ∧ m1.token_count = m2.token_count ∧
      m1.metadata = m2.metadata) := by
  cases m1; cases m2; simp [Message.mk.injEq]

/-- Claim C8: for every string s — including strings outside
{"messages","summary"} and {"similarity","mmr"} — constructing a
MemorySearchPayload with search_scope = s (or search_type = s) succeeds
without any validation error and stores s verbatim: this layer performs no
enumeration validation at construction. -/
theorem C8_search_payload_no_enum_validation (s : String) :
    (∃ p : MemorySearchPayload,
      MemorySearchPayload.construct Option.none Option.none
          (Option.some (Option.some s)) Option.none Option.none = Except.ok p ∧
      p.search_scope = Option.some s) ∧
    (∃ p : MemorySearchPayload,
      MemorySearchPayload.construct Option.none Option.none Option.none
          (Option.some (Option.some s)) Option.none = Except.ok p ∧
      p.search_type = Option.some s) :=
  ⟨⟨_, rfl, rfl⟩, ⟨_, rfl, rfl⟩⟩

/-- Claim C9: for every Memory constructed from a list of Messages,
`to_dict` maps "messages" to exactly the given messages, each recursively
expanded into its own dict, in their original order (no reordering,
dropping or adding), and "summary" to the recursively expanded Summary. -/
theorem C9_memory_to_dict_preserves_messages (msgs : List Message)
    (md : Option Metadata) (sm : Option Summary) (u ca : Option String)
    (tc : Option Int) :
    ∃ mem : Memory,
      Memory.construct (Option.some msgs) (Option.some md) (Option.some sm)
          (Option.some u) (Option.some ca) (Option.some tc) = Except.ok mem ∧
      mem.messages = msgs ∧
      mem.to_dict.lookup "messages"
        = Option.some (PyVal.list (msgs.map fun m => PyVal.dict m.to_dict)) ∧
      mem.to_dict.lookup "summary" = Option.some (optSummary sm) :=
  ⟨_, rfl, rfl, rfl, rfl⟩

/-- Claim C10: constructing a Summary with zero arguments succeeds, and each
omitted field is bound to its descriptive placeholder default — in
particular token_count holds the string "A token_count is required", a
non-integer value in a field declared `int`, because pydantic v1 does not
validate defaults. -/
theorem C10_summary_zero_args_placeholder_defaults :
    Summary.construct Option.none Option.none Option.none Option.none Option.none
      = Except.ok ⟨"A uuid is required", "A created_at is required",
          "Content is required", "A recent_message_uuid is required",
          PyVal.str "A token_count is required"⟩ := rfl
